import Mathlib

/-!
Verification of the extension-side message relay of the browser-ai-agent
repository (`src/extension/js/background.js`): the port registry with
`broadcastToPopups`, the WebSocket reconnect logic of `connectWebSocket`, the
message router `handleWebSocketMessage` with its badge/notification side
effects, and the two-step task submitter `executeTask`.

The JavaScript source is shallowly embedded: ports are identifiers, the
mutable `ports` set is an explicit duplicate-free list threaded through the
operations, callbacks become pure step functions, and `setTimeout` side
effects become explicitly scheduled fire times.
-/

/-- A UI-surface channel handle (a `chrome.runtime.Port` in the source),
identified by an opaque id. -/
abbrev PortId := Nat

/-- An event frame, as in the JavaScript source: an object with a mandatory
`type` string and optional type-specific payload fields.  Absent JS fields
are `none`. -/
structure Msg where
  type : String
  status : Option String
  state : Option String
  message : Option String
  error : Option String
  taskId : Option String
deriving DecidableEq, Repr

/-- Embeds `broadcastToPopups` (background.js lines 103-112): iterate over the
registered ports in order; `port.postMessage` either succeeds (modelled by
`ok p = true`, the pair `(p, m)` enters the delivery log) or throws (modelled
by `ok p = false`, in which case the port is deleted from the set and the loop
continues with the rest).  Returns the registry after the broadcast and the
delivery log. -/
def broadcastToPopups {α : Type} (m : Msg) (ok : α → Bool) :
    List α → List α × List (α × Msg)
  | [] => ([], [])
  | p :: rest =>
    if ok p then
      let r := broadcastToPopups m ok rest
      (p :: r.1, (p, m) :: r.2)
    else
      broadcastToPopups m ok rest

/-- One registry operation on the `ports` set: `ports.add port` on connect,
`ports.delete port` on disconnect. -/
inductive RegOp where
  | register (p : PortId)
  | unregister (p : PortId)
deriving DecidableEq, Repr

/-- Applies one registry operation.  `Set.add` is a no-op on an element
already present; `Set.delete` removes the element. -/
def applyRegOp (s : List PortId) : RegOp → List PortId
  | RegOp.register p => if p ∈ s then s else s ++ [p]
  | RegOp.unregister p => s.erase p

/-- Runs a sequence of register/unregister operations starting from the empty
registry, as the background script does from its initial `new Set()`. -/
def runRegOps (ops : List RegOp) : List PortId :=
  ops.foldl applyRegOp []

theorem applyRegOp_nodup {s : List PortId} (h : s.Nodup) (op : RegOp) :
    (applyRegOp s op).Nodup := by
  cases op with
  | register p =>
    simp only [applyRegOp]
    split
    · exact h
    · next hp => simp [List.nodup_append, h, hp]
  | unregister p => exact h.erase p

theorem runRegOps_nodup (ops : List RegOp) : (runRegOps ops).Nodup := by
  suffices h : ∀ s : List PortId, s.Nodup → (ops.foldl applyRegOp s).Nodup by
    exact h [] List.nodup_nil
  induction ops with
  | nil => intro s hs; simpa using hs
  | cons op rest ih =>
    intro s hs
    simpa using ih _ (applyRegOp_nodup hs op)

theorem broadcast_registry_eq_filter {α : Type} (m : Msg) (ok : α → Bool)
    (s : List α) : (broadcastToPopups m ok s).1 = s.filter ok := by
  induction s with
  | nil => rfl
  | cons p rest ih =>
    simp only [broadcastToPopups, List.filter_cons]
    split <;> simp_all

theorem broadcast_log_eq_filter_map {α : Type} (m : Msg) (ok : α → Bool)
    (s : List α) :
    (broadcastToPopups m ok s).2 = (s.filter ok).map (fun p => (p, m)) := by
  induction s with
  | nil => rfl
  | cons p rest ih =>
    simp only [broadcastToPopups, List.filter_cons]
    split <;> simp_all

theorem count_pair_map (e : Msg) (p : PortId) (s : List PortId) :
    List.count (p, e) (s.map (fun q => (q, e))) = List.count p s := by
  induction s with
  | nil => rfl
  | cons a rest ih =>
    simp [List.count_cons, ih, Prod.ext_iff]

/-- C1: for every sequence of register/unregister operations on the port
registry and every event `e`, `broadcastToPopups e` (with every delivery
succeeding) logs exactly one delivery of `e` to every port registered at the
moment of the call, and the delivery log contains nothing else: no delivery
to an unregistered port and no message other than `e`. -/
theorem C1_broadcast_exactly_once (ops : List RegOp) (e : Msg) (p : PortId) :
    List.count (p, e) (broadcastToPopups e (fun _ => true) (runRegOps ops)).2
      = (if p ∈ runRegOps ops then 1 else 0)
    ∧ ∀ q me, (q, me) ∈ (broadcastToPopups e (fun _ => true) (runRegOps ops)).2 →
        me = e ∧ q ∈ runRegOps ops := by
  have hlog := broadcast_log_eq_filter_map e (fun _ => true) (runRegOps ops)
  constructor
  · rw [hlog, List.filter_true, count_pair_map,
      List.count_eq_of_nodup (runRegOps_nodup ops)]
  · intro q me hq
    rw [hlog, List.filter_true] at hq
    rcases List.mem_map.mp hq with ⟨r, hr, hre⟩
    cases hre
    exact ⟨rfl, hr⟩

theorem broadcast_count_eq (e : Msg) (ok : PortId → Bool) (S : List PortId)
    (hnd : S.Nodup) (p : PortId) :
    List.count (p, e) (broadcastToPopups e ok S).2
      = if p ∈ S ∧ ok p = true then 1 else 0 := by
  rw [broadcast_log_eq_filter_map, count_pair_map,
    List.count_eq_of_nodup (hnd.filter ok)]
  simp [List.mem_filter]

/-- A concrete frame used to instantiate broadcast theorems. -/
def pingMsg : Msg := ⟨"ping", none, none, none, none, none⟩

/-- C2: if delivery of `e` to registered surface `b` fails (modelled by the
success predicate `q != b`), then every other surface registered at the time
of the call still receives `e` exactly once (the broadcast does not abort),
`b` receives nothing, `b` is removed from the registry, and a subsequent
broadcast from the resulting registry delivers nothing to `b`. -/
theorem C2_failed_delivery_isolated (e e2 : Msg) (S : List PortId) (b : PortId)
    (hnd : S.Nodup) (hb : b ∈ S) :
    (∀ p ∈ S, p ≠ b →
      List.count (p, e) (broadcastToPopups e (fun q => q != b) S).2 = 1)
    ∧ List.count (b, e) (broadcastToPopups e (fun q => q != b) S).2 = 0
    ∧ b ∉ (broadcastToPopups e (fun q => q != b) S).1
    ∧ List.count (b, e2)
        (broadcastToPopups e2 (fun _ => true)
          (broadcastToPopups e (fun q => q != b) S).1).2 = 0 := by
  have hnotin : b ∉ (broadcastToPopups e (fun q => q != b) S).1 := by
    rw [broadcast_registry_eq_filter]
    simp [List.mem_filter]
  refine ⟨?_, ?_, hnotin, ?_⟩
  · intro p hp hpb
    rw [broadcast_count_eq e _ S hnd p]
    simp [hp, hpb]
  · rw [broadcast_count_eq e _ S hnd b]
    simp
  · have hnd' : ((broadcastToPopups e (fun q => q != b) S).1).Nodup := by
      rw [broadcast_registry_eq_filter]
      exact hnd.filter _
    rw [broadcast_count_eq e2 _ _ hnd' b]
    simp [hnotin]

/-- Witness for C2 at the registry `[0, 1, 2]` with surface `1` failing. -/
theorem C2_failed_delivery_isolated_witness :
    ([0, 1, 2] : List PortId).Nodup ∧ (1 : PortId) ∈ [0, 1, 2] ∧
    List.count ((1 : PortId), pingMsg)
      (broadcastToPopups pingMsg (fun q => q != 1) [0, 1, 2]).2 = 0 ∧
    (1 : PortId) ∉ (broadcastToPopups pingMsg (fun q => q != 1) [0, 1, 2]).1 :=
  ⟨by decide, by decide,
    (C2_failed_delivery_isolated pingMsg pingMsg [0, 1, 2] 1
      (by decide) (by decide)).2.1,
    (C2_failed_delivery_isolated pingMsg pingMsg [0, 1, 2] 1
      (by decide) (by decide)).2.2.1⟩

/-- `MAX_RECONNECT_ATTEMPTS` (background.js line 4). -/
def MAX_RECONNECT_ATTEMPTS : Nat := 5

/-- `RECONNECT_DELAY` in milliseconds (background.js line 5): one base-delay
unit. -/
def RECONNECT_DELAY : Nat := 1000

/-- Embeds the `ws.onclose` handler (background.js lines 24-33) acting on
`reconnectAttempts`: if the counter is below the ceiling it is incremented
first, then a reconnect is scheduled after `RECONNECT_DELAY *
reconnectAttempts` with the already-incremented counter; at the ceiling
nothing is scheduled.  Returns the new counter and the scheduled delay, if
any. -/
def onCloseStep (n : Nat) : Nat × Option Nat :=
  if n < MAX_RECONNECT_ATTEMPTS then (n + 1, some (RECONNECT_DELAY * (n + 1)))
  else (n, none)

/-- Runs `k` successive close events (each reconnect attempt closing again
without opening) from counter value `n`, collecting the scheduled reconnect
delays in order. -/
def runCloses : Nat → Nat → Nat × List Nat
  | n, 0 => (n, [])
  | n, k + 1 =>
    match onCloseStep n with
    | (n', some d) =>
      let r := runCloses n' k
      (r.1, d :: r.2)
    | (n', none) => runCloses n' k

theorem runCloses_spec : ∀ (k n : Nat), n ≤ 5 →
    runCloses n k = (min (n + k) 5,
      (List.range' (n + 1) (min (n + k) 5 - n)).map (fun d => RECONNECT_DELAY * d))
  | 0, n, hn => by
    simp [runCloses, Nat.min_eq_left hn]
  | k + 1, n, hn => by
    by_cases h : n < 5
    · have ih := runCloses_spec k (n + 1) (by omega)
      have h2 : min (n + (k + 1)) 5 - n = (min (n + 1 + k) 5 - (n + 1)) + 1 := by
        omega
      have h1 : min (n + (k + 1)) 5 = min (n + 1 + k) 5 := by omega
      simp only [runCloses, onCloseStep, MAX_RECONNECT_ATTEMPTS, if_pos h, ih,
        h1, h2, List.range'_succ, List.map_cons]
      have h3 : (n + 1 + k) ⊓ 5 - n = ((n + 1 + k) ⊓ 5 - (n + 1)) + 1 := by
        omega
      rw [h3, List.range'_succ, List.map_cons]
    · have h5 : n = 5 := by omega
      subst h5
      have ih := runCloses_spec k 5 (by omega)
      have h1 : min (5 + (k + 1)) 5 = min (5 + k) 5 := by omega
      simp only [runCloses, onCloseStep, MAX_RECONNECT_ATTEMPTS, ih, h1]
      have h6 : (5 + k) ⊓ 5 = 5 := by omega
      simp [ih, h6]

/-- C3: starting from a fresh counter (`reconnectAttempts = 0`), `k`
successive close events schedule reconnects with delays `1, 2, ..., min k 5`
times the base delay (linear backoff), and once five attempts have been made
(`5 ≤ k`), the delays are exactly `[1000, 2000, 3000, 4000, 5000]` and any
number of further close events schedules no additional reconnect. -/
theorem C3_linear_backoff (k : Nat) :
    (runCloses 0 k).2
      = (List.range' 1 (min k 5)).map (fun d => RECONNECT_DELAY * d)
    ∧ (runCloses 0 k).1 = min k 5
    ∧ (5 ≤ k →
        (runCloses 0 k).2 = [1000, 2000, 3000, 4000, 5000]
        ∧ ∀ j, (runCloses (runCloses 0 k).1 j).2 = []) := by
  have h := runCloses_spec k 0 (by omega)
  simp only [Nat.zero_add] at h
  refine ⟨by simp [h], by simp [h], ?_⟩
  intro hk
  have h5 : min k 5 = 5 := by omega
  constructor
  · simp only [h, h5]
    rfl
  · intro j
    have hj := runCloses_spec j 5 (by omega)
    have h6 : min (5 + j) 5 = 5 := by omega
    simp [h, h5, hj, h6]

/-- Witness for C3 at `k = 7` closes: delays `1000..5000`, nothing more. -/
theorem C3_linear_backoff_witness :
    5 ≤ 7
    ∧ (runCloses 0 7).2 = [1000, 2000, 3000, 4000, 5000]
    ∧ (runCloses (runCloses 0 7).1 3).2 = [] :=
  ⟨by decide, ((C3_linear_backoff 7).2.2 (by decide)).1,
    ((C3_linear_backoff 7).2.2 (by decide)).2 3⟩

/-- An event observed by the connection manager: the socket opening, the
socket closing, or an invocation of `connectWebSocket()` itself. -/
inductive ConnEvent where
  | wsOpen
  | wsClose
  | connectCall
deriving DecidableEq, Repr

/-- Embeds the effect of each connection-manager event on the pair
(`reconnectAttempts` counter, log of scheduled reconnect delays):
`ws.onopen` (line 20) resets the counter to 0; `ws.onclose` (lines 29-32)
behaves as `onCloseStep`; the body of `connectWebSocket` (lines 11-16)
closes and replaces the socket but never touches the counter. -/
def connStep : Nat × List Nat → ConnEvent → Nat × List Nat
  | (_, log), ConnEvent.wsOpen => (0, log)
  | (n, log), ConnEvent.wsClose =>
    match onCloseStep n with
    | (n', some d) => (n', log ++ [d])
    | (n', none) => (n', log)
  | (n, log), ConnEvent.connectCall => (n, log)

/-- C10: invoking `connectWebSocket()` never changes the reconnect counter;
the counter is reset to 0 only by a successful open; and once the counter has
reached the ceiling of 5, any sequence of events containing no open (e.g. a
manual `connect()` whose socket closes without ever opening) leaves the
counter at 5 and schedules no further reconnect. -/
theorem C10_counter_reset_only_on_open :
    (∀ s : Nat × List Nat, connStep s ConnEvent.connectCall = s)
    ∧ (∀ (n : Nat) (log : List Nat) (e : ConnEvent), n ≠ 0 →
        (connStep (n, log) e).1 = 0 → e = ConnEvent.wsOpen)
    ∧ (∀ (log : List Nat) (evs : List ConnEvent),
        (∀ e ∈ evs, e ≠ ConnEvent.wsOpen) →
        List.foldl connStep (5, log) evs = (5, log)) := by
  refine ⟨fun s => rfl, ?_, ?_⟩
  · intro n log e hn h0
    cases e with
    | wsOpen => rfl
    | wsClose =>
      exfalso
      by_cases h : n < MAX_RECONNECT_ATTEMPTS
      · have hc : connStep (n, log) ConnEvent.wsClose
            = (n + 1, log ++ [RECONNECT_DELAY * (n + 1)]) := by
          simp [connStep, onCloseStep, h]
        rw [hc] at h0
        simp at h0
      · have hc : connStep (n, log) ConnEvent.wsClose = (n, log) := by
          simp [connStep, onCloseStep, h]
        rw [hc] at h0
        exact hn h0
    | connectCall => exact absurd h0 hn
  · intro log evs
    induction evs with
    | nil => intro _; rfl
    | cons e rest ih =>
      intro hno
      have he : e ≠ ConnEvent.wsOpen := hno e (by simp)
      have hstep : connStep (5, log) e = (5, log) := by
        cases e with
        | wsOpen => exact absurd rfl he
        | wsClose => rfl
        | connectCall => rfl
      rw [List.foldl_cons, hstep]
      exact ih (fun x hx => hno x (by simp [hx]))

/-- Witness for C10: from a counter at the ceiling, a manual connect whose
socket closes twice without opening schedules nothing. -/
theorem C10_counter_reset_only_on_open_witness :
    ((5 : Nat) ≠ 0 → (connStep (5, []) ConnEvent.wsOpen).1 = 0 →
        ConnEvent.wsOpen = ConnEvent.wsOpen)
    ∧ List.foldl connStep (5, [])
        [ConnEvent.connectCall, ConnEvent.wsClose, ConnEvent.wsClose]
        = (5, []) :=
  ⟨C10_counter_reset_only_on_open.2.1 5 [] ConnEvent.wsOpen,
    C10_counter_reset_only_on_open.2.2 []
      [ConnEvent.connectCall, ConnEvent.wsClose, ConnEvent.wsClose]
      (by decide)⟩

/-- A side effect performed by the background script while handling an
inbound frame. -/
inductive Effect where
  | broadcast (m : Msg)
  | setBadgeText (text : String)
  | setBadgeColor (color : String)
  | scheduleBadgeClear (delayMs : Nat)
  | setBrowserState (state : Option String)
  | notify (body : Option String)
deriving DecidableEq, Repr

/-- Embeds `handleTaskUpdate` (background.js lines 70-83): badge text and
color per status; the `completed` branch additionally schedules a badge
clear 3000 ms later; any other status does nothing. -/
def handleTaskUpdate (m : Msg) : List Effect :=
  if m.status = some "running" then
    [Effect.setBadgeText "⚡", Effect.setBadgeColor "#FFC107"]
  else if m.status = some "completed" then
    [Effect.setBadgeText "✓", Effect.setBadgeColor "#4CAF50",
      Effect.scheduleBadgeClear 3000]
  else if m.status = some "failed" then
    [Effect.setBadgeText "!", Effect.setBadgeColor "#F44336"]
  else []

/-- Embeds `handleBrowserState` (background.js lines 86-89): durably store
`message.state`. -/
def handleBrowserState (m : Msg) : List Effect :=
  [Effect.setBrowserState m.state]

/-- Embeds `handleError` (background.js lines 92-100): create a system
notification whose body is `message.error` — the `error` field of the frame,
which is absent (`none`, JS `undefined`) when the frame carries its text in
the `message` field instead. -/
def handleError (m : Msg) : List Effect :=
  [Effect.notify m.error]

/-- Embeds `handleWebSocketMessage` (background.js lines 51-67): first
broadcast the raw frame to all popups, then switch on `message.type`; any
type other than `task_update`, `browser_state` and `error` falls through the
switch with no further side effect. -/
def handleWebSocketMessage (m : Msg) : List Effect :=
  Effect.broadcast m ::
    (if m.type = "task_update" then handleTaskUpdate m
     else if m.type = "browser_state" then handleBrowserState m
     else if m.type = "error" then handleError m
     else [])

/-- C6: for every inbound frame, the first action of the router is the
broadcast of the raw frame, before any type-specific side effect; and a
frame whose type is not one of the recognized three is broadcast unchanged
with no further side effect (the router is a total function, so no failure
is raised). -/
theorem C6_broadcast_first_unknown_passthrough (m : Msg) :
    (handleWebSocketMessage m).head? = some (Effect.broadcast m)
    ∧ (m.type ∉ (["task_update", "browser_state", "error"] : List String) →
        handleWebSocketMessage m = [Effect.broadcast m]) := by
  refine ⟨rfl, ?_⟩
  intro h
  simp only [List.mem_cons, List.mem_singleton, not_or] at h
  simp [handleWebSocketMessage, h.1, h.2.1, h.2.2]

/-- The unknown-type frame of the spec scenario. -/
def unknownMsg : Msg := ⟨"unknown_future_type", none, none, none, none, none⟩

/-- Witness for C6 at the spec's `unknown_future_type` frame. -/
theorem C6_broadcast_first_unknown_passthrough_witness :
    unknownMsg.type ∉ (["task_update", "browser_state", "error"] : List String)
    ∧ handleWebSocketMessage unknownMsg = [Effect.broadcast unknownMsg] :=
  ⟨by decide,
    (C6_broadcast_first_unknown_passthrough unknownMsg).2 (by decide)⟩

/-- Does `pre` occur at the head of `l`? -/
def charsStartsWith : List Char → List Char → Bool
  | [], _ => true
  | _ :: _, [] => false
  | a :: as, b :: bs => a == b && charsStartsWith as bs

/-- Does `needle` occur contiguously anywhere in `hay`? -/
def charsHas : List Char → List Char → Bool
  | [], needle => charsStartsWith needle []
  | a :: t, needle => charsStartsWith needle (a :: t) || charsHas t needle

/-- Does a notification body (absent when the read field was undefined)
contain the string `s`? -/
def optContains (body : Option String) (s : String) : Bool :=
  match body with
  | none => false
  | some t => charsHas t.data s.data

theorem charsStartsWith_refl (l : List Char) : charsStartsWith l l = true := by
  induction l with
  | nil => rfl
  | cons a t ih => simp [charsStartsWith, ih]

theorem optContains_self (s : String) : optContains (some s) s = true := by
  cases hd : s.data with
  | nil => simp [optContains, hd, charsHas, charsStartsWith]
  | cons a t => simp [optContains, hd, charsHas, charsStartsWith_refl]

/-- An `error` frame carrying its text in the `message` field — the shape the
background script itself uses when it emits error events. -/
def errorViaMessageField : Msg := ⟨"error", none, none, some "boom", none, none⟩

/-- Counterexample to C7 as stated: an inbound `error` frame carrying its
text "boom" in the `message` field produces a notification whose body is
absent (`message.error` is undefined), so the alert does not contain the
carried error message. -/
theorem C7_counterexample :
    handleWebSocketMessage errorViaMessageField
      = [Effect.broadcast errorViaMessageField, Effect.notify none]
    ∧ optContains none "boom" = false := by
  exact ⟨rfl, rfl⟩

/-- C7 amended: an inbound `error` frame produces a notification whose body
is exactly the frame's `error` field; when the text is carried in `error`
the alert contains it, but when the text is carried only in `message` the
notification body is absent and contains nothing. -/
theorem C7_error_notification_body (m : Msg) (s : String)
    (ht : m.type = "error") :
    (m.error = some s →
      handleWebSocketMessage m = [Effect.broadcast m, Effect.notify (some s)]
      ∧ optContains (some s) s = true)
    ∧ (m.error = none →
      handleWebSocketMessage m = [Effect.broadcast m, Effect.notify none]
      ∧ ∀ t : String, optContains none t = false) := by
  constructor
  · intro he
    refine ⟨?_, optContains_self s⟩
    simp [handleWebSocketMessage, handleError, ht, he]
  · intro he
    refine ⟨?_, fun t => rfl⟩
    simp [handleWebSocketMessage, handleError, ht, he]

/-- An `error` frame carrying its text in the `error` field. -/
def errorViaErrorField : Msg := ⟨"error", none, none, none, some "boom", none⟩

/-- Witness for the amended C7 at a frame carrying "boom" in `error`. -/
theorem C7_error_notification_body_witness :
    errorViaErrorField.type = "error"
    ∧ (handleWebSocketMessage errorViaErrorField
        = [Effect.broadcast errorViaErrorField, Effect.notify (some "boom")]
      ∧ optContains (some "boom") "boom" = true) :=
  ⟨rfl, (C7_error_notification_body errorViaErrorField "boom" rfl).1 rfl⟩

/-- The frame broadcast on full submission success (background.js lines
164-167): `{type: 'task_created', taskId: taskData.task_id}`. -/
def taskCreatedMsg (task_id : String) : Msg :=
  ⟨"task_created", none, none, none, none, some task_id⟩

/-- The frame broadcast from the catch block (lines 169-175):
`{type: 'error', message: 'Failed to execute task: ' + error.message}`. -/
def submitErrorMsg (thrown : String) : Msg :=
  ⟨"error", none, none, some ("Failed to execute task: " ++ thrown), none, none⟩

/-- Embeds `executeTask` (background.js lines 138-176).  The backend's
behaviour is an input: whether the create request returns success
(`response.ok`), the `task_id` its body carries, and whether the execute
request returns success.  Returns whether the execute request was issued at
all, together with the list of frames broadcast.  A non-success create
throws `'Failed to create task'` before the execute fetch; a non-success
execute throws `'Failed to execute task'`; the surrounding try/catch turns
either throw into a single `error` broadcast and swallows it, so the
function always returns normally to its caller. -/
def executeTask (createOk : Bool) (task_id : String) (executeOk : Bool) :
    Bool × List Msg :=
  if createOk = false then
    (false, [submitErrorMsg "Failed to create task"])
  else if executeOk = false then
    (true, [submitErrorMsg "Failed to execute task"])
  else
    (true, [taskCreatedMsg task_id])

/-- Is the frame an `error`-type frame? -/
def isErrorMsg (m : Msg) : Bool := m.type == "error"

/-- Is the frame a `task_created` frame? -/
def isTaskCreatedMsg (m : Msg) : Bool := m.type == "task_created"

/-- C4: when a submission step fails — the create request returns
non-success, or create succeeds and the execute request returns non-success —
no execute request is issued in the former case, exactly one `error`-type
frame is broadcast, and no `task_created` frame is broadcast.  (`executeTask`
is a total function returning its broadcasts: the catch swallows the throw,
so nothing is re-raised to the caller.) -/
theorem C4_submit_failure_single_error (createOk executeOk : Bool)
    (t : String) (h : createOk = false ∨ executeOk = false) :
    (createOk = false → (executeTask createOk t executeOk).1 = false)
    ∧ List.countP isErrorMsg (executeTask createOk t executeOk).2 = 1
    ∧ List.countP isTaskCreatedMsg (executeTask createOk t executeOk).2 = 0 := by
  cases createOk <;> cases executeOk <;>
    simp_all [executeTask, submitErrorMsg, isErrorMsg, isTaskCreatedMsg,
      List.countP_cons, List.countP_nil]

/-- Witness for C4 with the create step failing. -/
theorem C4_submit_failure_single_error_witness :
    (false = false ∨ true = false)
    ∧ (executeTask false "t1" true).1 = false
    ∧ List.countP isErrorMsg (executeTask false "t1" true).2 = 1
    ∧ List.countP isTaskCreatedMsg (executeTask false "t1" true).2 = 0 :=
  ⟨Or.inl rfl,
    (C4_submit_failure_single_error false true "t1" (Or.inl rfl)).1 rfl,
    (C4_submit_failure_single_error false true "t1" (Or.inl rfl)).2.1,
    (C4_submit_failure_single_error false true "t1" (Or.inl rfl)).2.2⟩

/-- C5: when the create request succeeds with `task_id` `t` and the execute
request succeeds, the broadcasts are exactly one `task_created` frame
carrying `taskId = t` and no `error` frame, and broadcasting that frame
delivers it exactly once to every currently-registered surface. -/
theorem C5_submit_success_task_created (t : String) (S : List PortId)
    (hnd : S.Nodup) :
    (executeTask true t true).2 = [taskCreatedMsg t]
    ∧ List.countP isErrorMsg (executeTask true t true).2 = 0
    ∧ ∀ p ∈ S,
        List.count (p, taskCreatedMsg t)
          (broadcastToPopups (taskCreatedMsg t) (fun _ => true) S).2 = 1 := by
  refine ⟨rfl, ?_, ?_⟩
  · simp [executeTask, taskCreatedMsg, isErrorMsg,
      List.countP_cons, List.countP_nil]
  · intro p hp
    rw [broadcast_count_eq (taskCreatedMsg t) _ S hnd p]
    simp [hp]

/-- Witness for C5 with `task_id` "t1" and registry `[0, 1]`. -/
theorem C5_submit_success_task_created_witness :
    ([0, 1] : List PortId).Nodup
    ∧ (executeTask true "t1" true).2 = [taskCreatedMsg "t1"]
    ∧ List.count ((0 : PortId), taskCreatedMsg "t1")
        (broadcastToPopups (taskCreatedMsg "t1") (fun _ => true) [0, 1]).2 = 1 :=
  ⟨by decide,
    (C5_submit_success_task_created "t1" [0, 1] (by decide)).1,
    (C5_submit_success_task_created "t1" [0, 1] (by decide)).2.2 0 (by decide)⟩

/-- The browser-action badge together with the pending
`setTimeout(() => setBadgeText(''), 3000)` clears scheduled by completed
task updates, as absolute fire times in milliseconds. -/
structure BadgeState where
  text : String
  color : String
  pendingClears : List Nat
deriving DecidableEq, Repr

/-- The badge at extension start: no text, no pending timer. -/
def badgeInit : BadgeState := ⟨"", "", []⟩

/-- Fires every pending clear timer whose time has arrived: each sets the
badge text to the empty string (idle). -/
def fireClears (now : Nat) (s : BadgeState) : BadgeState :=
  if s.pendingClears.any (fun ft => ft ≤ now) then
    ⟨"", s.color, s.pendingClears.filter (fun ft => now < ft)⟩
  else s

/-- Embeds the badge effect of `handleTaskUpdate` (background.js lines
70-83) for a `task_update` arriving at absolute time `now`: `running` and
`failed` set the badge and schedule nothing; `completed` sets it and
schedules a clear 3000 ms (3 time units of 1000 ms) later. -/
def applyTaskUpdate (now : Nat) (status : Option String) (s : BadgeState) :
    BadgeState :=
  if status = some "running" then ⟨"⚡", "#FFC107", s.pendingClears⟩
  else if status = some "completed" then
    ⟨"✓", "#4CAF50", s.pendingClears ++ [now + 3000]⟩
  else if status = some "failed" then ⟨"!", "#F44336", s.pendingClears⟩
  else s

/-- Runs a time-ordered trace of `task_update` events, firing due timers
before each event, then advances the clock to `endTime`, firing whatever
remains due. -/
def runBadgeTrace (s : BadgeState) :
    List (Nat × Option String) → Nat → BadgeState
  | [], endTime => fireClears endTime s
  | (t, st) :: rest, endTime =>
    runBadgeTrace (applyTaskUpdate t st (fireClears t s)) rest endTime

/-- Counterexample to C8 as stated: a `completed` update at time 0 schedules
a clear at 3000; a `failed` update at time 1000 sets the failure badge `!`
and schedules nothing, yet at time 3000 the earlier timer fires and clears
the failure badge — so a step of the system does auto-clear the failure
indicator. -/
theorem C8_counterexample :
    (runBadgeTrace badgeInit
      [(0, some "completed"), (1000, some "failed")] 1000).text = "!"
    ∧ (runBadgeTrace badgeInit
      [(0, some "completed"), (1000, some "failed")] 3000).text = "" := by
  constructor <;> rfl

/-- C8 amended: a `completed` update sets the success badge, which reverts
to idle exactly 3 time units (3000 ms) later — still `✓` strictly before
`t + 3000`, cleared from `t + 3000` on; a `failed` update sets the failure
badge and its handler schedules no auto-clear, so with no pending timer from
an earlier `completed` update the failure badge persists forever; however a
clear already scheduled by an earlier `completed` update still fires and can
clear the failure badge (see the counterexample). -/
theorem C8_badge_indicators (t endA endB endC : Nat)
    (hA : t + 3000 ≤ endA) (hB : endB < t + 3000) :
    (runBadgeTrace badgeInit [(t, some "completed")] endA).text = ""
    ∧ (runBadgeTrace badgeInit [(t, some "completed")] endB).text = "✓"
    ∧ (runBadgeTrace badgeInit [(t, some "failed")] endC).text = "!"
    ∧ ∀ s : BadgeState,
        (applyTaskUpdate t (some "failed") s).pendingClears
          = s.pendingClears := by
  have hB' : ¬ (t + 3000 ≤ endB) := by omega
  refine ⟨?_, ?_, ?_, ?_⟩
  · simp [runBadgeTrace, fireClears, applyTaskUpdate, badgeInit, hA]
  · simp [runBadgeTrace, fireClears, applyTaskUpdate, badgeInit, hB']
  · simp [runBadgeTrace, fireClears, applyTaskUpdate, badgeInit]
  · intro s
    simp [applyTaskUpdate]

/-- Witness for the amended C8 at `t = 0`, observing at 3000, 500 and
10000 ms. -/
theorem C8_badge_indicators_witness :
    (0 + 3000 ≤ 3000 ∧ 500 < 0 + 3000)
    ∧ (runBadgeTrace badgeInit [(0, some "completed")] 3000).text = ""
    ∧ (runBadgeTrace badgeInit [(0, some "completed")] 500).text = "✓"
    ∧ (runBadgeTrace badgeInit [(0, some "failed")] 10000).text = "!" :=
  ⟨by decide,
    (C8_badge_indicators 0 3000 500 10000 (by decide) (by decide)).1,
    (C8_badge_indicators 0 3000 500 10000 (by decide) (by decide)).2.1,
    (C8_badge_indicators 0 3000 500 10000 (by decide) (by decide)).2.2.1⟩

/-- A channel handle together with the name it connected under
(`port.name`). -/
structure CPort where
  pid : Nat
  name : String
deriving DecidableEq, Repr

/-- Result of the `chrome.runtime.onConnect` listener for one incoming
connection: the registry afterwards, the messages sent directly to the new
port, and whether the `onMessage` listener (the `execute_task` handler) was
attached to it. -/
structure ConnectResult where
  ports : List CPort
  sentToPort : List Msg
  listenerAttached : Bool
deriving DecidableEq, Repr

/-- Embeds the `chrome.runtime.onConnect` listener (background.js lines
115-135): only a port whose name is exactly "popup" is added to the set,
sent the initial connection status, and given disconnect and message
listeners; a connection under any other name is ignored entirely. -/
def onConnect (wsOpen : Bool) (ports : List CPort) (p : CPort) :
    ConnectResult :=
  if p.name = "popup" then
    ⟨if p ∈ ports then ports else ports ++ [p],
      [⟨"connection_status",
        some (if wsOpen then "connected" else "disconnected"),
        none, none, none, none⟩],
      true⟩
  else
    ⟨ports, [], false⟩

/-- The registry invariant: every registered channel connected under the
name "popup". -/
def allPopup (ports : List CPort) : Prop :=
  ∀ q ∈ ports, q.name = "popup"

/-- C9: the invariant that the registry only holds channels named "popup" is
preserved by every operation — a new connection (`onConnect`), a disconnect
(`erase`), and the removal performed by a failing broadcast; a connection
arriving under any other name is never added, receives no initial
connection-status message, gets no `onMessage` listener (so its
`execute_task` messages are ignored), and every delivery any broadcast ever
logs goes to a channel named "popup". -/
theorem C9_registry_only_popups (wsOpen : Bool) (ports : List CPort)
    (p : CPort) (hinv : allPopup ports) :
    allPopup (onConnect wsOpen ports p).ports
    ∧ (p.name ≠ "popup" → onConnect wsOpen ports p = ⟨ports, [], false⟩)
    ∧ allPopup (ports.erase p)
    ∧ (∀ (m : Msg) (ok : CPort → Bool),
        allPopup (broadcastToPopups m ok ports).1)
    ∧ (∀ (m : Msg) (ok : CPort → Bool) (q : CPort) (me : Msg),
        (q, me) ∈ (broadcastToPopups m ok ports).2 → q.name = "popup") := by
  refine ⟨?_, ?_, ?_, ?_, ?_⟩
  · intro q hq
    simp only [onConnect] at hq
    by_cases hp : p.name = "popup"
    · rw [if_pos hp] at hq
      by_cases hmem : p ∈ ports
      · exact hinv q (by simpa [hmem] using hq)
      · rcases (by simpa [hmem] using hq : q ∈ ports ∨ q = p) with h | h
        · exact hinv q h
        · rw [h]
          exact hp
    · rw [if_neg hp] at hq
      exact hinv q hq
  · intro hp
    simp [onConnect, hp]
  · intro q hq
    exact hinv q (List.mem_of_mem_erase hq)
  · intro m ok q hq
    rw [broadcast_registry_eq_filter] at hq
    exact hinv q (List.mem_of_mem_filter hq)
  · intro m ok q me hq
    rw [broadcast_log_eq_filter_map] at hq
    rcases List.mem_map.mp hq with ⟨r, hr, hre⟩
    cases hre
    exact hinv q (List.mem_of_mem_filter hr)

/-- Witness for C9: a port named "devtools" connecting to the empty registry
is ignored entirely. -/
theorem C9_registry_only_popups_witness :
    allPopup ([] : List CPort)
    ∧ (CPort.mk 7 "devtools").name ≠ "popup"
    ∧ onConnect false [] (CPort.mk 7 "devtools")
        = ⟨[], [], false⟩ :=
  ⟨fun q hq => absurd hq (List.not_mem_nil q),
    by decide,
    (C9_registry_only_popups false [] (CPort.mk 7 "devtools")
      (fun q hq => absurd hq (List.not_mem_nil q))).2.1 (by decide)⟩

/-- Witness for C1 at the operation sequence register 0, register 1,
unregister 0. -/
theorem C1_broadcast_exactly_once_witness :
    List.count ((1 : PortId), pingMsg)
      (broadcastToPopups pingMsg (fun _ => true)
        (runRegOps [RegOp.register 0, RegOp.register 1,
          RegOp.unregister 0])).2
      = (if (1 : PortId) ∈ runRegOps [RegOp.register 0, RegOp.register 1,
          RegOp.unregister 0] then 1 else 0) :=
  (C1_broadcast_exactly_once
    [RegOp.register 0, RegOp.register 1, RegOp.unregister 0] pingMsg 1).1
